import Mathlib

/-!
Shallow embedding of the monitor-bot scan-cycle core.

Sources embedded (python):
  src/main/python/models/market_data.py      (MarketSnapshot, PriceOIChange, MarketBias, Alert)
  src/main/python/utils/calculators.py       (calculate_percentage_change, compare_snapshots,
                                              is_significant_move)
  src/main/python/services/market_data_service.py
                                             (_get_snapshot_key, _store_snapshot,
                                              _get_previous_snapshot, fetch_all_snapshots,
                                              get_changes, get_initial_snapshots)
  src/main/python/core/monitoring_engine.py  (analyze_changes)
  src/main/python/main.py                    (MonitorBot.run loop body)

Python floats are embedded as rationals (ℚ); timestamps as opaque ticks (ℕ).
-/

namespace MonitorBot

/-- Embeds `MarketSnapshot` (models/market_data.py).  `market_type` is `None` for
Binance and `'linear'`/`'inverse'` for Bybit. -/
structure MarketSnapshot where
  symbol : String
  exchange : String
  price : ℚ
  open_interest : ℚ
  volume_24h : ℚ
  timestamp : ℕ
  market_type : Option String
deriving Repr, DecidableEq

/-- Embeds `PriceOIChange` (models/market_data.py). -/
structure PriceOIChange where
  symbol : String
  exchange : String
  price_change_pct : ℚ
  oi_change_pct : ℚ
  volume_change_pct : ℚ
  current_price : ℚ
  previous_price : ℚ
  current_oi : ℚ
  previous_oi : ℚ
  volume_24h : ℚ
  previous_volume : ℚ
  timestamp : ℕ
deriving Repr, DecidableEq

/-- Embeds `PriceOIChange.meets_threshold`: OR of the two absolute-change tests. -/
def PriceOIChange.meets_threshold (c : PriceOIChange)
    (price_threshold oi_threshold : ℚ) : Bool :=
  decide (|c.price_change_pct| ≥ price_threshold)
    || decide (|c.oi_change_pct| ≥ oi_threshold)

/-- Embeds `MarketBias` (models/market_data.py). -/
structure MarketBias where
  bias_type : String
  indicator : String
  description : String
deriving Repr, DecidableEq

/-- Embeds `MarketBias.calculate`.  `price_up`/`oi_up` are the python boolean
tests `pct > 0`; the four-way if/elif cascade assigns `bias_type` and
`description` together, and `indicator` is `indicators.get(bias_type, bias_type)`. -/
def MarketBias.calculate (price_change_pct oi_change_pct : ℚ)
    (indicators : List (String × String)) : MarketBias :=
  let price_up : Bool := decide (price_change_pct > 0)
  let oi_up : Bool := decide (oi_change_pct > 0)
  let bd : String × String :=
    if price_up && oi_up then ("long_inflow", "New longs are opening")
    else if !price_up && oi_up then ("short_inflow", "New shorts are opening")
    else if price_up && !oi_up then ("short_squeeze", "Shorts are covering/liquidating")
    else ("long_liquidation", "Longs are selling/liquidating")
  { bias_type := bd.1
    indicator := ((indicators.lookup bd.1).getD bd.1)
    description := bd.2 }

/-- Embeds `Alert` (models/market_data.py). -/
structure Alert where
  symbol : String
  exchange : String
  market_bias : MarketBias
  price_change : PriceOIChange
  timestamp : ℕ
  market_type : Option String
deriving Repr, DecidableEq

/-- Embeds `calculate_percentage_change` (utils/calculators.py): early return 0
when the old value is 0, else `((new - old) / old) * 100`. -/
def calculate_percentage_change (old_value new_value : ℚ) : ℚ :=
  if old_value = 0 then 0
  else ((new_value - old_value) / old_value) * 100

/-- Embeds `compare_snapshots` (utils/calculators.py).  The guard checks symbol
and exchange only (the python docstring: validate snapshots are for same symbol
and exchange); `market_type` is not compared. -/
def compare_snapshots (previous current : MarketSnapshot) : Option PriceOIChange :=
  if previous.symbol ≠ current.symbol ∨ previous.exchange ≠ current.exchange then none
  else some
    { symbol := current.symbol
      exchange := current.exchange
      price_change_pct := calculate_percentage_change previous.price current.price
      oi_change_pct := calculate_percentage_change previous.open_interest current.open_interest
      volume_change_pct := calculate_percentage_change previous.volume_24h current.volume_24h
      current_price := current.price
      previous_price := previous.price
      current_oi := current.open_interest
      previous_oi := previous.open_interest
      volume_24h := current.volume_24h
      previous_volume := previous.volume_24h
      timestamp := current.timestamp }

/-- Embeds `is_significant_move` (utils/calculators.py): the AND-based helper,
unused by the alerting pipeline. -/
def is_significant_move (price_change_pct oi_change_pct price_threshold oi_threshold : ℚ) : Bool :=
  decide (|price_change_pct| ≥ price_threshold) && decide (|oi_change_pct| ≥ oi_threshold)

/-- Embeds `MarketDataService._get_snapshot_key`.  Python builds the string key
`"{exchange}:{symbol}:{market_type}"` when `market_type` is truthy (neither
`None` nor the empty string), else `"{exchange}:{symbol}"`. -/
def get_snapshot_key (exchange symbol : String) : Option String → String
  | some mt =>
      if mt = "" then exchange ++ ":" ++ symbol
      else exchange ++ ":" ++ symbol ++ ":" ++ mt
  | none => exchange ++ ":" ++ symbol

/-- The key under which `_store_snapshot` files a snapshot: its own
exchange, symbol and market_type fields. -/
def snapshot_key (s : MarketSnapshot) : String :=
  get_snapshot_key s.exchange s.symbol s.market_type

/-- The in-memory snapshot table `MarketDataService.snapshots`, embedded as an
insertion-ordered association list (python dict). -/
abbrev SnapshotStore := List (String × MarketSnapshot)

/-- Dict lookup `self.snapshots.get(key)` (`_get_previous_snapshot`). -/
def storeGet : SnapshotStore → String → Option MarketSnapshot
  | [], _ => none
  | (k0, v0) :: rest, k => if k0 = k then some v0 else storeGet rest k

/-- Dict assignment `self.snapshots[key] = snapshot` (`_store_snapshot`):
replace an existing entry in place, else append. -/
def storePut : SnapshotStore → String → MarketSnapshot → SnapshotStore
  | [], k, v => [(k, v)]
  | (k0, v0) :: rest, k, v =>
      if k0 = k then (k0, v) :: rest else (k0, v0) :: storePut rest k v

/-- One task slot of the `asyncio.gather(..., return_exceptions=True)` call in
`fetch_all_snapshots`: a task either returns a `MarketSnapshot`, returns `None`
(the exchange wrappers swallow per-request failures and return `None`), or
raises (the exception object lands in the result list). -/
inductive FetchResult where
  | ok (s : MarketSnapshot)
  | failed
  | raised
deriving Repr, DecidableEq

/-- Outcome of the awaited batch in `fetch_all_snapshots`: the gather settled
with one result per task, the outer `asyncio.wait_for` timeout fired, or some
other exception escaped while gathering. -/
inductive BatchOutcome where
  | completed (results : List FetchResult)
  | outerTimeout
  | otherError
deriving Repr, DecidableEq

/-- Embeds `MarketDataService.fetch_all_snapshots`: on a completed gather,
keep exactly the slots that are `MarketSnapshot` instances (the python filter
`isinstance(r, MarketSnapshot) and r is not None`); on the outer timeout or any
other exception, catch it and return the empty list. -/
def fetch_all_snapshots : BatchOutcome → List MarketSnapshot
  | .completed results =>
      results.filterMap fun r =>
        match r with
        | .ok s => some s
        | .failed => none
        | .raised => none
  | .outerTimeout => []
  | .otherError => []

/-- Number of warning lines `fetch_all_snapshots` prints itself: one in each
`except` branch, none on the normal path. -/
def fetch_warning_logs : BatchOutcome → ℕ
  | .completed _ => 0
  | .outerTimeout => 1
  | .otherError => 1

/-- Result of the per-snapshot loop in `MarketDataService.get_changes`:
the accumulated `changes` list, the trace of store writes (one key per
`_store_snapshot` call, in order) and the final snapshot table. -/
structure ScanResult where
  changes : List PriceOIChange
  writes : List String
  store : SnapshotStore
deriving Repr, DecidableEq

/-- Embeds the loop body of `MarketDataService.get_changes`: for each fetched
snapshot, look up the previous snapshot under its key, append the comparison
when one is produced, and always overwrite the store entry for that key. -/
def get_changes_loop : SnapshotStore → List MarketSnapshot → ScanResult
  | store, [] => { changes := [], writes := [], store := store }
  | store, current :: rest =>
      let head : List PriceOIChange :=
        match storeGet store (snapshot_key current) with
        | some previous =>
            match compare_snapshots previous current with
            | some change => [change]
            | none => []
        | none => []
      let r := get_changes_loop (storePut store (snapshot_key current) current) rest
      { changes := head ++ r.changes
        writes := snapshot_key current :: r.writes
        store := r.store }

/-- The comparison `get_changes` produces for one fetched snapshot against a
fixed store: previous-snapshot lookup followed by `compare_snapshots`. -/
def comparison_against_store (store : SnapshotStore) (s : MarketSnapshot) : Option PriceOIChange :=
  (storeGet store (snapshot_key s)).bind fun previous => compare_snapshots previous s

/-- Embeds the loop of `MarketDataService.get_initial_snapshots`: store every
fetched snapshot without comparing. -/
def store_initial_snapshots (store : SnapshotStore) (snapshots : List MarketSnapshot) : SnapshotStore :=
  snapshots.foldl (fun st s => storePut st (snapshot_key s) s) store

/-- Embeds the `Alert(...)` construction inside
`MonitoringEngine.analyze_changes` (monitoring_engine.py): bias is computed
from the change, and `market_type` is set to `None`. -/
def make_alert (bias_indicators : List (String × String)) (change : PriceOIChange) : Alert :=
  { symbol := change.symbol
    exchange := change.exchange
    market_bias := MarketBias.calculate change.price_change_pct change.oi_change_pct bias_indicators
    price_change := change
    timestamp := change.timestamp
    market_type := none }

/-- Embeds `MonitoringEngine.analyze_changes`: one pass over the changes,
appending an alert exactly when `meets_threshold` holds. -/
def analyze_changes (price_threshold oi_threshold : ℚ)
    (bias_indicators : List (String × String)) : List PriceOIChange → List Alert
  | [] => []
  | change :: rest =>
      if change.meets_threshold price_threshold oi_threshold then
        make_alert bias_indicators change
          :: analyze_changes price_threshold oi_threshold bias_indicators rest
      else analyze_changes price_threshold oi_threshold bias_indicators rest

/-- Outcome of `await asyncio.wait_for(self.engine.run_scan_cycle(), ...)` as
seen by the loop body of `MonitorBot.run` (main.py): the scan returned,
`asyncio.TimeoutError` fired, or some other exception escaped. -/
inductive ScanOutcome where
  | success
  | timeout
  | raisedError
deriving Repr, DecidableEq

/-- Embeds `max_consecutive_errors = 5` in `MonitorBot.run`. -/
def maxConsecutiveErrors : ℕ := 5

/-- Observable effects of one iteration of the `while self.running` loop in
`MonitorBot.run`.  `errorsAfterHandling` is the value of `consecutive_errors`
immediately after the try/except arms run (reset to 0 on success, incremented
in both except arms), before the error-budget check; `consecutiveErrors` is its
value at the end of the iteration; `warningsSent` counts
`telegram_service.send_error_message` calls; `reconnectCycles` counts entries
into the close/sleep/initialize reconnection block. -/
structure IterResult where
  consecutiveErrors : ℕ
  errorsAfterHandling : ℕ
  warningsSent : ℕ
  reconnectCycles : ℕ
  running : Bool
deriving Repr, DecidableEq

/-- Embeds one iteration of the monitoring loop in `MonitorBot.run`, given the
scan outcome and whether the reconnection (close + initialize), if attempted,
succeeds without raising. -/
def runIteration (consecutive_errors : ℕ) (outcome : ScanOutcome) (reinitOk : Bool) : IterResult :=
  match outcome with
  | .success =>
      { consecutiveErrors := 0
        errorsAfterHandling := 0
        warningsSent := 0
        reconnectCycles := 0
        running := true }
  | .timeout | .raisedError =>
      let e := consecutive_errors + 1
      if e ≥ maxConsecutiveErrors then
        if reinitOk then
          { consecutiveErrors := 0
            errorsAfterHandling := e
            warningsSent := 1
            reconnectCycles := 1
            running := true }
        else
          { consecutiveErrors := e
            errorsAfterHandling := e
            warningsSent := 1
            reconnectCycles := 1
            running := true }
      else
        { consecutiveErrors := e
          errorsAfterHandling := e
          warningsSent := 1
          reconnectCycles := 0
          running := true }

/-! Helper lemmas about the snapshot store and the scan loop. -/

theorem storeGet_storePut_self (store : SnapshotStore) (k : String) (v : MarketSnapshot) :
    storeGet (storePut store k v) k = some v := by
  induction store with
  | nil => simp [storePut, storeGet]
  | cons hd rest ih =>
      obtain ⟨k0, v0⟩ := hd
      by_cases h : k0 = k
      · simp [storePut, storeGet, h]
      · simp [storePut, storeGet, h, ih]

theorem storeGet_storePut_ne (store : SnapshotStore) (k q : String) (v : MarketSnapshot)
    (hne : q ≠ k) : storeGet (storePut store k v) q = storeGet store q := by
  have hkq : k ≠ q := Ne.symm hne
  induction store with
  | nil => simp [storePut, storeGet, hkq]
  | cons hd rest ih =>
      obtain ⟨k0, v0⟩ := hd
      by_cases h : k0 = k
      · subst h
        simp [storePut, storeGet, hkq]
      · by_cases hq : k0 = q
        · simp [storePut, storeGet, h, hq, hne]
        · simp [storePut, storeGet, h, hq, ih]

theorem length_filterMap_of_isSome {α β : Type _} (f : α → Option β) :
    ∀ l : List α, (∀ x ∈ l, (f x).isSome) → (l.filterMap f).length = l.length := by
  intro l
  induction l with
  | nil => intro _; rfl
  | cons x rest ih =>
      intro h
      have hx : (f x).isSome := h x (List.mem_cons_self x rest)
      obtain ⟨b, hb⟩ := Option.isSome_iff_exists.mp hx
      have hrest := ih fun y hy => h y (List.mem_cons_of_mem x hy)
      simp [List.filterMap_cons, hb, hrest]

theorem get_changes_loop_writes (fetched : List MarketSnapshot) :
    ∀ store : SnapshotStore,
      (get_changes_loop store fetched).writes = fetched.map snapshot_key := by
  induction fetched with
  | nil => intro store; rfl
  | cons s rest ih => intro store; simp [get_changes_loop, ih]

theorem get_changes_loop_changes (fetched : List MarketSnapshot) :
    ∀ store : SnapshotStore, (fetched.map snapshot_key).Nodup →
      (get_changes_loop store fetched).changes
        = fetched.filterMap (comparison_against_store store) := by
  induction fetched with
  | nil => intro store _; rfl
  | cons s rest ih =>
      intro store hnd
      simp only [List.map_cons, List.nodup_cons] at hnd
      obtain ⟨hnotin, hnd⟩ := hnd
      have hcongr : ∀ t ∈ rest,
          comparison_against_store store t
            = comparison_against_store (storePut store (snapshot_key s) s) t := by
        intro t ht
        have hk : snapshot_key t ≠ snapshot_key s := by
          intro h
          exact hnotin (h ▸ List.mem_map_of_mem snapshot_key ht)
        unfold comparison_against_store
        rw [storeGet_storePut_ne store (snapshot_key s) (snapshot_key t) s hk]
      rw [List.filterMap_cons, List.filterMap_congr hcongr, ← ih _ hnd]
      unfold comparison_against_store
      cases hprev : storeGet store (snapshot_key s) with
      | none => simp [get_changes_loop, hprev]
      | some p =>
          cases hcmp : compare_snapshots p s with
          | none => simp [get_changes_loop, hprev, hcmp]
          | some c => simp [get_changes_loop, hprev, hcmp]

theorem get_changes_loop_store_frame (fetched : List MarketSnapshot) :
    ∀ (store : SnapshotStore) (k : String), k ∉ fetched.map snapshot_key →
      storeGet (get_changes_loop store fetched).store k = storeGet store k := by
  induction fetched with
  | nil => intro store k _; rfl
  | cons s rest ih =>
      intro store k hk
      simp only [List.map_cons, List.mem_cons, not_or] at hk
      obtain ⟨hks, hkrest⟩ := hk
      show storeGet (get_changes_loop (storePut store (snapshot_key s) s) rest).store k
        = storeGet store k
      rw [ih _ k hkrest, storeGet_storePut_ne store (snapshot_key s) k s hks]

theorem get_changes_loop_store_updates (fetched : List MarketSnapshot) :
    ∀ (store : SnapshotStore) (s : MarketSnapshot),
      (fetched.map snapshot_key).Nodup → s ∈ fetched →
      storeGet (get_changes_loop store fetched).store (snapshot_key s) = some s := by
  induction fetched with
  | nil => intro _ _ _ h; exact absurd h (List.not_mem_nil _)
  | cons t rest ih =>
      intro store s hnd hmem
      simp only [List.map_cons, List.nodup_cons] at hnd
      obtain ⟨hnotin, hnd⟩ := hnd
      rcases List.mem_cons.mp hmem with heq | hmem
      · subst heq
        show storeGet (get_changes_loop (storePut store (snapshot_key s) s) rest).store
          (snapshot_key s) = some s
        rw [get_changes_loop_store_frame rest _ _ hnotin]
        exact storeGet_storePut_self store (snapshot_key s) s
      · exact ih _ s hnd hmem

/-! Fixtures used by counterexamples and witnesses. -/

/-- The spec's boundary example (§8): a change with priceChangePct = 3.5 and
oiChangePct = 4.0. -/
def example_change : PriceOIChange :=
  { symbol := "BTC/USDT"
    exchange := "binance"
    price_change_pct := 3.5
    oi_change_pct := 4
    volume_change_pct := 0
    current_price := 103.5
    previous_price := 100
    current_oi := 104
    previous_oi := 100
    volume_24h := 0
    previous_volume := 0
    timestamp := 0 }

/-- A Bybit linear-variant snapshot. -/
def snapA : MarketSnapshot :=
  { symbol := "BTC/USD", exchange := "bybit", price := 100, open_interest := 10
    volume_24h := 1, timestamp := 0, market_type := some "linear" }

/-- The same symbol and exchange as `snapA` under the inverse variant. -/
def snapB : MarketSnapshot :=
  { symbol := "BTC/USD", exchange := "bybit", price := 110, open_interest := 12
    volume_24h := 1, timestamp := 1, market_type := some "inverse" }

/-- A stored predecessor snapshot for the scan witnesses. -/
def wprev : MarketSnapshot :=
  { symbol := "BTC/USDT", exchange := "binance", price := 100, open_interest := 10
    volume_24h := 1, timestamp := 0, market_type := none }

/-- A freshly fetched snapshot for the same key as `wprev`. -/
def wcur : MarketSnapshot :=
  { symbol := "BTC/USDT", exchange := "binance", price := 110, open_interest := 11
    volume_24h := 2, timestamp := 1, market_type := none }

/-- A one-entry store holding `wprev` under its own key. -/
def wstore : SnapshotStore := [(snapshot_key wprev, wprev)]

/-- Modelled from the spec: the four-row sign table of §3 with the documented
0-counts-as-down tie-break, the comparison point for the bias classifier. -/
def spec_bias_table (price_change_pct oi_change_pct : ℚ) : String :=
  if price_change_pct > 0 then
    (if oi_change_pct > 0 then "long_inflow" else "short_squeeze")
  else
    (if oi_change_pct > 0 then "short_inflow" else "long_liquidation")

/-! Claim theorems. -/

/-- C1: `analyze_changes` emits an alert for exactly the changes whose
`meets_threshold` holds, `meets_threshold` is the logical OR of the two
absolute-change threshold tests, and the concrete change (3.5, 4.0) against
thresholds (3.0, 5.0) does qualify. -/
theorem analyze_changes_alert_iff_or_threshold :
    ∀ (pt ot : ℚ) (ind : List (String × String)) (changes : List PriceOIChange),
      analyze_changes pt ot ind changes
        = (changes.filter fun c => c.meets_threshold pt ot).map (make_alert ind)
      ∧ (∀ c : PriceOIChange,
          c.meets_threshold pt ot = true
            ↔ (|c.price_change_pct| ≥ pt ∨ |c.oi_change_pct| ≥ ot))
      ∧ example_change.meets_threshold 3 5 = true := by
  intro pt ot ind changes
  refine ⟨?_, ?_, ?_⟩
  · induction changes with
    | nil => rfl
    | cons c rest ih =>
        by_cases h : c.meets_threshold pt ot = true <;>
          simp [analyze_changes, List.filter_cons, h, ih]
  · intro c
    simp [PriceOIChange.meets_threshold]
  · norm_num [PriceOIChange.meets_threshold, example_change]
    rw [abs_of_nonneg (by norm_num : (0:ℚ) ≤ 7 / 2)]
    norm_num

/-- C2: at the scheduler, a timeout or raised-error scan outcome increments
`consecutive_errors` by one (its value right after the except arm, before the
error-budget check) and sends exactly one warning notification while the loop
keeps running; a successful scan resets the counter to zero without warning. -/
theorem scan_error_increments_and_warns_success_resets :
    ∀ (n : ℕ) (r : Bool),
      ((runIteration n ScanOutcome.timeout r).errorsAfterHandling = n + 1
        ∧ (runIteration n ScanOutcome.timeout r).warningsSent = 1
        ∧ (runIteration n ScanOutcome.timeout r).running = true)
      ∧ ((runIteration n ScanOutcome.raisedError r).errorsAfterHandling = n + 1
        ∧ (runIteration n ScanOutcome.raisedError r).warningsSent = 1
        ∧ (runIteration n ScanOutcome.raisedError r).running = true)
      ∧ ((runIteration n ScanOutcome.success r).consecutiveErrors = 0
        ∧ (runIteration n ScanOutcome.success r).errorsAfterHandling = 0
        ∧ (runIteration n ScanOutcome.success r).warningsSent = 0
        ∧ (runIteration n ScanOutcome.success r).running = true) := by
  intro n r
  refine ⟨⟨?_, ?_, ?_⟩, ⟨?_, ?_, ?_⟩, ?_, ?_, ?_, ?_⟩ <;>
    simp only [runIteration] <;> (try split_ifs) <;> rfl

/-- C3 counterexample: with the counter at 4, a fifth consecutive failure
reaches the budget and enters the reconnection block, but when the
reinitialization fails the counter is not reset to zero. -/
theorem recovery_reset_fails_when_reinit_fails :
    (runIteration 4 ScanOutcome.timeout false).reconnectCycles = 1
    ∧ (runIteration 4 ScanOutcome.timeout false).consecutiveErrors ≠ 0 := by
  decide

/-- C3 amended: when the incremented counter reaches the budget of 5 on a
timeout or raised-error outcome, exactly one reconnection cycle is entered and
the loop keeps running; the counter is reset to zero exactly when the
reconnection succeeds, and keeps its incremented value when it fails. -/
theorem recovery_cycle_at_budget :
    ∀ (n : ℕ) (o : ScanOutcome) (r : Bool),
      (o = ScanOutcome.timeout ∨ o = ScanOutcome.raisedError) →
      n + 1 ≥ maxConsecutiveErrors →
      (runIteration n o r).reconnectCycles = 1
      ∧ (runIteration n o r).consecutiveErrors = (if r then 0 else n + 1)
      ∧ (runIteration n o r).running = true := by
  intro n o r ho hb
  rcases ho with ho | ho <;> subst ho <;> cases r <;> simp [runIteration, hb]

/-- C3 witness: at counter 4 and a timeout with a succeeding reconnection, one
reconnection cycle is entered. -/
theorem recovery_cycle_at_budget_witness :
    (runIteration 4 ScanOutcome.timeout true).reconnectCycles = 1 :=
  (recovery_cycle_at_budget 4 ScanOutcome.timeout true (Or.inl rfl) (by decide)).1

/-- C4 counterexample: no error signal reaches the caller of
`fetch_all_snapshots` on an outer batch timeout — the returned value is not
distinguishable from every completed batch; it equals the return value of the
empty completed batch. -/
theorem batch_timeout_signal_not_visible_to_caller :
    ¬ ∀ results : List FetchResult,
        fetch_all_snapshots BatchOutcome.outerTimeout
          ≠ fetch_all_snapshots (BatchOutcome.completed results) :=
  fun h => h [] rfl

/-- C4 amended: on an outer batch timeout `fetch_all_snapshots` returns the
empty result set and prints a single warning itself; the caller receives only
the empty list, identical to a batch that completed with no successes. -/
theorem batch_timeout_returns_empty_with_single_warning :
    fetch_all_snapshots BatchOutcome.outerTimeout = []
    ∧ fetch_warning_logs BatchOutcome.outerTimeout = 1
    ∧ fetch_all_snapshots BatchOutcome.outerTimeout
        = fetch_all_snapshots (BatchOutcome.completed []) :=
  ⟨rfl, rfl, rfl⟩

/-- C5: when fetch succeeds for the snapshots in `fetched` (distinct keys, and
for each key a stored predecessor recording the same symbol and exchange), the
scan produces exactly one comparison per fetched snapshot — its stored
predecessor against it — overwrites the store entries for exactly the fetched
keys, and leaves every other key's entry unchanged. -/
theorem partial_fetch_updates_exactly_fetched_keys :
    ∀ (store : SnapshotStore) (fetched : List MarketSnapshot),
      (fetched.map snapshot_key).Nodup →
      (∀ s ∈ fetched, ∃ p, storeGet store (snapshot_key s) = some p
          ∧ p.symbol = s.symbol ∧ p.exchange = s.exchange) →
      (get_changes_loop store fetched).changes
          = fetched.filterMap (comparison_against_store store)
      ∧ (get_changes_loop store fetched).changes.length = fetched.length
      ∧ (∀ s ∈ fetched,
          storeGet (get_changes_loop store fetched).store (snapshot_key s) = some s)
      ∧ (∀ k, k ∉ fetched.map snapshot_key →
          storeGet (get_changes_loop store fetched).store k = storeGet store k) := by
  intro store fetched hnd hprev
  have hchanges := get_changes_loop_changes fetched store hnd
  have hsome : ∀ s ∈ fetched, (comparison_against_store store s).isSome := by
    intro s hs
    obtain ⟨p, hp, hsym, hexc⟩ := hprev s hs
    unfold comparison_against_store
    rw [hp]
    simp [compare_snapshots, hsym, hexc]
  refine ⟨hchanges, ?_,
    fun s hs => get_changes_loop_store_updates fetched store s hnd hs,
    fun k hk => get_changes_loop_store_frame fetched store k hk⟩
  rw [hchanges]
  exact length_filterMap_of_isSome _ fetched hsome

/-- C5 witness: one fetched snapshot against a one-entry store for the same
key produces exactly one comparison. -/
theorem partial_fetch_updates_witness :
    (get_changes_loop wstore [wcur]).changes.length = 1 :=
  (partial_fetch_updates_exactly_fetched_keys wstore [wcur]
    (by simp)
    (by
      intro s hs
      simp only [List.mem_singleton] at hs
      subst hs
      exact ⟨wprev, by decide, rfl, rfl⟩)).2.1

/-- C6 counterexample: two snapshots whose full store keys differ only in the
variant component are still compared — `compare_snapshots` does not return
`none` on a market-type-only mismatch. -/
theorem compare_ignores_market_type_mismatch :
    snapshot_key snapA ≠ snapshot_key snapB
    ∧ compare_snapshots snapA snapB ≠ none := by
  decide

/-- C6 amended: `compare_snapshots` returns `none` exactly when the symbol or
the exchange differ; the variant/market-type component is not checked. -/
theorem compare_none_iff_symbol_or_exchange_differ :
    ∀ a b : MarketSnapshot,
      compare_snapshots a b = none
        ↔ (a.symbol ≠ b.symbol ∨ a.exchange ≠ b.exchange) := by
  intro a b
  unfold compare_snapshots
  split_ifs with h
  · exact iff_of_true rfl h
  · exact iff_of_false (by simp) h

/-- C7: `MarketBias.calculate` realizes the four-row sign table, with a change
strictly greater than 0 counting as up and a change equal to 0 counting as
down on both axes, independently of the indicator dictionary; the zero-change
boundary cases follow the 0-is-down tie-break. -/
theorem bias_calculate_matches_sign_table :
    ∀ (p o : ℚ) (ind : List (String × String)),
      (MarketBias.calculate p o ind).bias_type = spec_bias_table p o
      ∧ (MarketBias.calculate 0 o ind).bias_type
          = (if o > 0 then "short_inflow" else "long_liquidation")
      ∧ (MarketBias.calculate p 0 ind).bias_type
          = (if p > 0 then "short_squeeze" else "long_liquidation") := by
  have key : ∀ (p o : ℚ) (ind : List (String × String)),
      (MarketBias.calculate p o ind).bias_type = spec_bias_table p o := by
    intro p o ind
    by_cases hp : p > 0 <;> by_cases ho : o > 0 <;>
      simp [MarketBias.calculate, spec_bias_table, hp, ho]
  intro p o ind
  refine ⟨key p o ind, ?_, ?_⟩
  · rw [key 0 o ind]
    simp [spec_bias_table]
  · rw [key p 0 ind]
    by_cases hp : p > 0 <;> simp [spec_bias_table, hp]

/-- C8: `calculate_percentage_change` equals `((new - old) / old) * 100` when
the old value is nonzero and `0` when it is zero; in particular
`calculate_percentage_change 100 103 = 3` and
`calculate_percentage_change 100 95 = -5`. -/
theorem percentage_change_formula :
    (∀ old_value new_value : ℚ, old_value ≠ 0 →
        calculate_percentage_change old_value new_value
          = ((new_value - old_value) / old_value) * 100)
    ∧ (∀ new_value : ℚ, calculate_percentage_change 0 new_value = 0)
    ∧ calculate_percentage_change 100 103 = 3
    ∧ calculate_percentage_change 100 95 = -5 := by
  refine ⟨?_, ?_, ?_, ?_⟩
  · intro old_value new_value h
    simp [calculate_percentage_change, h]
  · intro new_value
    simp [calculate_percentage_change]
  · norm_num [calculate_percentage_change]
  · norm_num [calculate_percentage_change]

/-- C8 witness: the nonzero-denominator branch applied at (100, 103). -/
theorem percentage_change_formula_witness :
    calculate_percentage_change 100 103 = ((103 - 100) / 100) * 100 :=
  percentage_change_formula.1 100 103 (by norm_num)

/-- C9: for a key with no store entry, a scan whose fetched snapshots have
distinct keys contributes no comparison for that key, writes the store entry
for it exactly once and stores the fetched snapshot there; with an empty store
the scan yields no changes at all — hence zero alerts — and its sole effect is
populating the store. -/
theorem cold_start_zero_changes_one_write :
    ∀ (store : SnapshotStore) (fetched : List MarketSnapshot) (s : MarketSnapshot),
      (fetched.map snapshot_key).Nodup → s ∈ fetched →
      storeGet store (snapshot_key s) = none →
      comparison_against_store store s = none
      ∧ (get_changes_loop store fetched).changes
          = fetched.filterMap (comparison_against_store store)
      ∧ (get_changes_loop store fetched).writes.count (snapshot_key s) = 1
      ∧ storeGet (get_changes_loop store fetched).store (snapshot_key s) = some s
      ∧ (get_changes_loop [] fetched).changes = []
      ∧ (∀ (pt ot : ℚ) (ind : List (String × String)),
          analyze_changes pt ot ind (get_changes_loop [] fetched).changes = []) := by
  intro store fetched s hnd hs hnone
  have hempty : (get_changes_loop ([] : SnapshotStore) fetched).changes = [] := by
    rw [get_changes_loop_changes fetched [] hnd]
    apply List.filterMap_eq_nil_iff.mpr
    intro t ht
    rfl
  refine ⟨?_, get_changes_loop_changes fetched store hnd, ?_, ?_, hempty, ?_⟩
  · unfold comparison_against_store
    rw [hnone]
    rfl
  · rw [get_changes_loop_writes fetched store]
    exact List.count_eq_one_of_mem hnd (List.mem_map_of_mem snapshot_key hs)
  · exact get_changes_loop_store_updates fetched store s hnd hs
  · intro pt ot ind
    rw [hempty]
    rfl

/-- C9 witness: a snapshot fetched into the empty store ends stored under its
own key. -/
theorem cold_start_witness :
    storeGet (get_changes_loop [] [wcur]).store (snapshot_key wcur) = some wcur :=
  (cold_start_zero_changes_one_write [] [wcur] wcur (by simp) (by simp) rfl).2.2.2.1

/-- C10: `fetch_all_snapshots` is total over every batch outcome: both
exception paths yield the empty list, per-task `None` returns and raised
exceptions are dropped from a completed gather while snapshot results are kept
in order, and the outer-timeout return value coincides with that of an empty
completed batch. -/
theorem fetch_all_snapshots_total_filters_failures :
    fetch_all_snapshots BatchOutcome.outerTimeout = []
    ∧ fetch_all_snapshots BatchOutcome.otherError = []
    ∧ (∀ results : List FetchResult,
        fetch_all_snapshots (BatchOutcome.completed (FetchResult.failed :: results))
          = fetch_all_snapshots (BatchOutcome.completed results))
    ∧ (∀ results : List FetchResult,
        fetch_all_snapshots (BatchOutcome.completed (FetchResult.raised :: results))
          = fetch_all_snapshots (BatchOutcome.completed results))
    ∧ (∀ (results : List FetchResult) (s : MarketSnapshot),
        fetch_all_snapshots (BatchOutcome.completed (FetchResult.ok s :: results))
          = s :: fetch_all_snapshots (BatchOutcome.completed results))
    ∧ fetch_all_snapshots BatchOutcome.outerTimeout
        = fetch_all_snapshots (BatchOutcome.completed []) := by
  refine ⟨rfl, rfl, ?_, ?_, ?_, rfl⟩ <;> intros <;> simp [fetch_all_snapshots]

end MonitorBot
